import Mathlib

/-!
Shallow embedding of the MIDI extension (extensions/MasterMath/midi.js):
the message table, the raw-byte decoder, the note/CC state tracker and the
query surface, together with theorems checking the specification claims.

JavaScript values that may be the number `undefined` are modelled as
`Option Nat` (with `none` for `undefined`); the decoder returning `null`
is modelled as `Option MidiEvent` with `none` for `null`.
-/

/-- The event types of the `eventMapping` table (its keys, in source order). -/
inductive EventType where
  | noteOn
  | noteOff
  | cc
  | aftertouch
  | programChange
  | pitchBend
  | channelPressure
  | songPosition
  | songSelect
  | clock
  | start
  | «continue»
  | stop
  | activeSensing
  | reset
deriving DecidableEq, Repr

/-- The semantic field names that `param1` / `param2` / `highResParam` can
designate in the `eventMapping` table. -/
inductive FieldName where
  | pitch
  | velocity
  | cc
  | value
deriving DecidableEq, Repr

/-- One entry of the `eventMapping` table: the raw command code and which
event property each data byte fills (shorthand and description strings are
irrelevant to behaviour and omitted). -/
structure EventSpec where
  command : Nat
  param1 : Option FieldName := none
  param2 : Option FieldName := none
  highResParam : Option FieldName := none
deriving DecidableEq, Repr

/-- The `eventMapping` table from the source. -/
def eventMapping : EventType → EventSpec
  | .noteOn => { command := 0x90, param1 := some .pitch, param2 := some .velocity }
  | .noteOff => { command := 0x80, param1 := some .pitch, param2 := some .velocity }
  | .cc => { command := 0xB0, param1 := some .cc, param2 := some .value }
  | .aftertouch => { command := 0xA0, param1 := some .pitch, param2 := some .value }
  | .programChange => { command := 0xC0, param1 := some .value }
  | .pitchBend => { command := 0xE0, highResParam := some .value }
  | .channelPressure => { command := 0xD0, param1 := some .value }
  | .songPosition => { command := 0xF2, highResParam := some .value }
  | .songSelect => { command := 0xF3, param1 := some .value }
  | .clock => { command := 0xF8 }
  | .start => { command := 0xFA }
  | .«continue» => { command := 0xFB }
  | .stop => { command := 0xFC }
  | .activeSensing => { command := 0xFE }
  | .reset => { command := 0xFF }

/-- `commandLookup`: the Map from raw command code back to the event type,
built from the `eventMapping` entries (all command codes are distinct). -/
def commandLookup : Nat → Option EventType
  | 0x90 => some .noteOn
  | 0x80 => some .noteOff
  | 0xB0 => some .cc
  | 0xA0 => some .aftertouch
  | 0xC0 => some .programChange
  | 0xE0 => some .pitchBend
  | 0xD0 => some .channelPressure
  | 0xF2 => some .songPosition
  | 0xF3 => some .songSelect
  | 0xF8 => some .clock
  | 0xFA => some .start
  | 0xFB => some .«continue»
  | 0xFC => some .stop
  | 0xFE => some .activeSensing
  | 0xFF => some .reset
  | _ => none

/-- `msbLsbToValue(value1, value2)`: combine a 7-bit byte pair into a 14-bit
value, `(value2 << 7) + value1`. -/
def msbLsbToValue (value1 value2 : Nat) : Nat :=
  (value2 <<< 7) + value1

/-- The parsed MIDI event object. Every optional JavaScript property is an
`Option Nat`, `none` standing for an absent or `undefined` property. -/
structure MidiEvent where
  type : EventType
  channel : Option Nat := none
  value1 : Option Nat := none
  value2 : Option Nat := none
  pitch : Option Nat := none
  velocity : Option Nat := none
  cc : Option Nat := none
  value : Option Nat := none
  device : Option Nat := none
  time : Option Nat := none
deriving DecidableEq, Repr

/-- Read the event property named by a `FieldName`. -/
def getField (f : FieldName) (e : MidiEvent) : Option Nat :=
  match f with
  | .pitch => e.pitch
  | .velocity => e.velocity
  | .cc => e.cc
  | .value => e.value

/-- Write the event property named by a `FieldName`. -/
def setField (f : FieldName) (v : Option Nat) (e : MidiEvent) : MidiEvent :=
  match f with
  | .pitch => { e with pitch := v }
  | .velocity => { e with velocity := v }
  | .cc => { e with cc := v }
  | .value => { e with value := v }

/-- `if (spec?.paramN && event.valueN != undefined) event[spec.paramN] ??= event.valueN`:
copy a data byte into its semantic field when the role exists, the byte is
present, and the field is not already set. -/
def applyRole (role : Option FieldName) (src : Option Nat) (e : MidiEvent) : MidiEvent :=
  match role, src with
  | some f, some v => if (getField f e).isNone then setField f (some v) e else e
  | _, _ => e

/-- `rawMessageToMidi(data)`: parse raw MIDI bytes into an event object, or
`null` (`none`) when the command code is not in the table.

The source splits the status byte as `channel = byte % 16`,
`command = byte - channel`, for system bytes as well, and in the
high-resolution branch runs
`const \x7b value \x7d = msbLsbToValue(value1, value2)`, which destructures a
property named `value` out of a plain number and therefore always yields
`undefined`; the embedding reproduces both behaviours exactly. -/
def rawMessageToMidi (data : List Nat) : Option MidiEvent :=
  match data with
  | [] => none
  | commandAndChannel :: rest =>
    let value1? := rest.get? 0
    let value2? := rest.get? 1
    let channel := commandAndChannel % 16
    let command := commandAndChannel - channel
    match commandLookup command with
    | none => none
    | some type =>
      let event : MidiEvent :=
        { type := type, channel := some channel, value1 := value1?, value2 := value2? }
      let spec := eventMapping type
      let event := applyRole spec.param1 event.value1 event
      let event := applyRole spec.param2 event.value2 event
      let event :=
        match spec.highResParam with
        | some f => setField f none event
        | none => event
      some event

/-- Replace the value stored under a key in an association list, keeping
insertion order, or append a new binding: the behaviour of
`Map.prototype.set` (used for `lastNotes`, `lastCCs`) and of assigning a
property of a plain object (used for `lastOfType` and the per-thread
`_midi` slots). -/
def setAssoc {α β : Type} [DecidableEq α] (k : α) (v : β) : List (α × β) → List (α × β)
  | [] => [(k, v)]
  | (k2, v2) :: rest => if k2 = k then (k, v) :: rest else (k2, v2) :: setAssoc k v rest

/-- Look up a key in an association list: `Map.prototype.get` / reading an
object property, `none` for a missing binding. -/
def getAssoc {α β : Type} [DecidableEq α] (k : α) : List (α × β) → Option β
  | [] => none
  | (k2, v) :: rest => if k2 = k then some v else getAssoc k rest

/-- `velocity > 0` on a possibly-`undefined` JavaScript number: comparison
with `undefined` is false. -/
def jsGt0 : Option Nat → Bool
  | some v => decide (0 < v)
  | none => false

/-- Remove the first element satisfying the predicate if one exists. -/
def removeFirst {α : Type} (p : α → Bool) : List α → List α
  | [] => []
  | a :: rest => if p a then rest else a :: removeFirst p rest

/-- The composite `arr.splice(arr.indexOf(x), 1)` / `arr.splice(arr.findIndex(p), 1)`
used in the note-release path: when an element matches, the first match is
removed; when none matches, the index is `-1` and `splice(-1, 1)` deletes the
LAST element of the array (and nothing when the array is empty). -/
def spliceRemove {α : Type} (p : α → Bool) (l : List α) : List α :=
  if l.any p then removeFirst p l else l.dropLast

/-- The module-level mutable state of the extension: the note tracker, the
last-event caches and the per-thread bound events (`thread._midi`,
keyed here by a numeric thread handle). -/
structure TrackerState where
  notesOn : List (Option Nat)
  noteVelocities : List (Option Nat × Option Nat)
  lastNotePressed : Option Nat
  lastNoteReleased : Option Nat
  lastNotes : List (Option Nat × MidiEvent)
  lastNoteOnOff : Option MidiEvent
  lastCCs : List (Option Nat × MidiEvent)
  lastOfType : List (EventType × MidiEvent)
  lastMidiEvent : Option MidiEvent
  threadMidi : List (Nat × MidiEvent)
deriving DecidableEq, Repr

/-- The state at module load: empty trackers, `lastNotePressed` and
`lastNoteReleased` initialised to the number 0. -/
def initialState : TrackerState :=
  { notesOn := []
    noteVelocities := []
    lastNotePressed := some 0
    lastNoteReleased := some 0
    lastNotes := []
    lastNoteOnOff := none
    lastCCs := []
    lastOfType := []
    lastMidiEvent := none
    threadMidi := [] }

/-- `onNote(event)`: handle a noteOn/noteOff event. The press branch pushes
the note and its velocity unconditionally; the release branch assigns
`lastNoteReleased` and splices out of `notesOn` / `noteVelocities` by the
found index (`-1` when absent, which deletes the last element). -/
def onNote (s : TrackerState) (event : MidiEvent) : TrackerState :=
  let note := event.pitch
  let velocity := event.velocity
  let s := { s with lastNotes := setAssoc note event s.lastNotes, lastNoteOnOff := some event }
  if (event.type == EventType.noteOn) && jsGt0 velocity then
    { s with notesOn := s.notesOn ++ [note]
             noteVelocities := s.noteVelocities ++ [(note, velocity)]
             lastNotePressed := note }
  else if (event.type == EventType.noteOff)
       || ((event.type == EventType.noteOn) && (velocity == some 0)) then
    { s with lastNoteReleased := note
             notesOn := spliceRemove (fun x => x == note) s.notesOn
             noteVelocities := spliceRemove (fun sub => sub.fst == note) s.noteVelocities }
  else s

/-- `onCC(event)`: store the event keyed by its controller number. -/
def onCC (s : TrackerState) (event : MidiEvent) : TrackerState :=
  { s with lastCCs := setAssoc event.cc event s.lastCCs }

/-- `onMIDIMessage(event)`: record the event in `lastMidiEvent` and
`lastOfType`, then dispatch by type (all non-note, non-cc types only log). -/
def onMIDIMessage (s : TrackerState) (event : MidiEvent) : TrackerState :=
  let s := { s with lastMidiEvent := some event
                    lastOfType := setAssoc event.type event s.lastOfType }
  match event.type with
  | .noteOn => onNote s event
  | .noteOff => onNote s event
  | .cc => onCC s event
  | _ => s

/-- `_onInputEvent`: decode the raw bytes; on failure (`null`) the event is
only re-emitted as unhandled and no tracked state changes; on success the
transport timestamp and (when the device is known, `deviceIndex != -1`,
modelled as `some`) the device index are attached and the event is applied. -/
def onInputEvent (s : TrackerState) (data : List Nat) (timeStamp : Nat)
    (deviceIndex : Option Nat) : TrackerState :=
  match rawMessageToMidi data with
  | none => s
  | some midiEvent =>
    let midiEvent := { midiEvent with time := some timeStamp }
    let midiEvent :=
      match deviceIndex with
      | some i => { midiEvent with device := some i }
      | none => midiEvent
    onMIDIMessage s midiEvent

/-- Fold a sequence of already-decoded events into the tracker. -/
def applyEvents (s : TrackerState) (events : List MidiEvent) : TrackerState :=
  events.foldl onMIDIMessage s

/-- A value a reporter block can return: a string, a number, or the
JavaScript value `undefined`. -/
inductive JSVal where
  | str (s : String)
  | num (n : Nat)
  | undef
deriving DecidableEq, Repr

/-- A possibly-`undefined` number returned from a reporter. -/
def optNumToVal : Option Nat → JSVal
  | some n => JSVal.num n
  | none => JSVal.undef

/-- The JavaScript key naming each event type. -/
def typeName : EventType → String
  | .noteOn => "noteOn"
  | .noteOff => "noteOff"
  | .cc => "cc"
  | .aftertouch => "aftertouch"
  | .programChange => "programChange"
  | .pitchBend => "pitchBend"
  | .channelPressure => "channelPressure"
  | .songPosition => "songPosition"
  | .songSelect => "songSelect"
  | .clock => "clock"
  | .start => "start"
  | .«continue» => "continue"
  | .stop => "stop"
  | .activeSensing => "activeSensing"
  | .reset => "reset"

namespace MIDI

/-- The `noteOn` reporter: `notesOn.includes(Number(args.note))`. -/
def noteOn (s : TrackerState) (note : Nat) : Bool :=
  s.notesOn.contains (some note)

/-- The `noteVelocity` reporter: find the first velocity entry for the note;
report it only when the note is active and the entry has a velocity. -/
def noteVelocity (s : TrackerState) (note : Nat) : Option Nat :=
  match s.noteVelocities.find? (fun sub => sub.fst == some note) with
  | some sub => if s.notesOn.contains (some note) && sub.snd.isSome then sub.snd else none
  | none => none

/-- The `activeNotes` reporter. -/
def activeNotes (s : TrackerState) : List (Option Nat) :=
  s.notesOn

/-- The `lastNote` reporter. -/
def lastNote (s : TrackerState) (pressedReleased : String) : Option Nat :=
  if pressedReleased == "pressed" then s.lastNotePressed else s.lastNoteReleased

/-- The `whenAnyNote` hat predicate: compare the type of the last note
event against noteOn/noteOff; on match bind the event to the thread and
return true, otherwise leave the binding untouched and return false. -/
def whenAnyNote (s : TrackerState) (pressedReleased : String) (ctx : Nat) :
    Bool × TrackerState :=
  let expectedType := if pressedReleased == "pressed" then EventType.noteOn else EventType.noteOff
  match s.lastNoteOnOff with
  | some last =>
    if last.type == expectedType then
      (true, { s with threadMidi := setAssoc ctx last s.threadMidi })
    else
      (false, s)
  | none => (false, s)

/-- The `whenNote` hat predicate: additionally require the pitch of the
last note event to equal the requested note. -/
def whenNote (s : TrackerState) (note : Nat) (pressedReleased : String) (ctx : Nat) :
    Bool × TrackerState :=
  let expectedType := if pressedReleased == "pressed" then EventType.noteOn else EventType.noteOff
  match s.lastNoteOnOff with
  | some last =>
    if (last.type == expectedType) && (last.pitch == some note) then
      (true, { s with threadMidi := setAssoc ctx last s.threadMidi })
    else
      (false, s)
  | none => (false, s)

/-- The `whenAnyCC` hat predicate: bind the last cc event when one exists. -/
def whenAnyCC (s : TrackerState) (ctx : Nat) : Bool × TrackerState :=
  match getAssoc EventType.cc s.lastOfType with
  | some last => (true, { s with threadMidi := setAssoc ctx last s.threadMidi })
  | none => (false, s)

/-- The `whenCC` hat predicate: match when the last cc event exists and its
controller number equals the requested one; on match bind it to the thread,
otherwise leave the binding untouched and return false. -/
def whenCC (s : TrackerState) (CC : Nat) (ctx : Nat) : Bool × TrackerState :=
  match getAssoc EventType.cc s.lastOfType with
  | some last =>
    if last.cc == some CC then
      (true, { s with threadMidi := setAssoc ctx last s.threadMidi })
    else
      (false, s)
  | none => (false, s)

/-- The `lastEventProp` reporter: resolve against the event bound to the
calling thread if any, else the last event overall; return the empty string
when neither exists; otherwise dispatch on the property name, with
type-mismatch cases returning the empty string and the fall-through of the
switch returning `undefined`. -/
def lastEventProp (s : TrackerState) (midiInputDevices : List String)
    (PROP : String) (ctx : Nat) : JSVal :=
  let last? :=
    match getAssoc ctx s.threadMidi with
    | some e => some e
    | none => s.lastMidiEvent
  match last? with
  | none => JSVal.str ""
  | some last =>
    match PROP with
    | "type" => JSVal.str (typeName last.type)
    | "pitch" =>
      if (last.type == EventType.noteOn) || (last.type == EventType.noteOff)
         || (last.type == EventType.aftertouch) then
        optNumToVal last.pitch
      else JSVal.str ""
    | "velocity" =>
      if (last.type == EventType.noteOn) || (last.type == EventType.noteOff) then
        optNumToVal last.velocity
      else JSVal.str ""
    | "cc" => if last.type == EventType.cc then optNumToVal last.cc else JSVal.str ""
    | "value" => if last.type == EventType.cc then optNumToVal last.value else JSVal.str ""
    | "channel" => optNumToVal last.channel
    | "device" =>
      match last.device with
      | some d =>
        match midiInputDevices.get? d with
        | some devString => if devString == "" then JSVal.str "" else JSVal.str devString
        | none => JSVal.str ""
      | none => JSVal.str ""
    | "pitchbend" =>
      match getAssoc EventType.pitchBend s.lastOfType with
      | some pb =>
        match pb.value with
        | some v => JSVal.num v
        | none => JSVal.str ""
      | none => JSVal.str ""
    | "aftertouch" =>
      if (last.type == EventType.noteOn) || (last.type == EventType.noteOff) then
        match getAssoc EventType.aftertouch s.lastOfType with
        | some touchEvent =>
          if touchEvent.pitch == last.pitch then optNumToVal touchEvent.value
          else JSVal.str ""
        | none => JSVal.str ""
      else optNumToVal last.value
    | "time" => optNumToVal last.time
    | _ => JSVal.undef

end MIDI

/-- State after pressing note 60 with velocity 100 (raw `[0x90, 60, 100]`). -/
def statePressed60 : TrackerState :=
  onInputEvent initialState [0x90, 60, 100] 0 none

/-- The alignment between the two note lists: `notesOn` is exactly the list
of first components of `noteVelocities`. This is the inductive invariant
behind the claimed activeNotes/noteVelocity correspondence. -/
def NotesVelocityAligned (s : TrackerState) : Prop :=
  s.notesOn = s.noteVelocities.map Prod.fst

/-- State after the ControlChange message `[0xB0, 7, 127]` (timestamp 5). -/
def stateCC7 : TrackerState :=
  onInputEvent initialState [0xB0, 7, 127] 5 none

/-- C1: the claim says every system status byte (0xF2 songPosition, 0xF3
songSelect, 0xF8 clock, 0xFA start, 0xFB continue, 0xFC stop, 0xFE
activeSensing, 0xFF reset) is looked up by its full byte and decodes to a
typed event. In the code the low nibble is always stripped before lookup,
so every such status reduces to command 0xF0, which is not in the table,
and the decoder returns null even though the table itself maps each full
byte to its event type. -/
theorem c1_system_status_bytes_fail_to_decode :
    (commandLookup 0xF2 = some EventType.songPosition ∧
     commandLookup 0xF3 = some EventType.songSelect ∧
     commandLookup 0xF8 = some EventType.clock ∧
     commandLookup 0xFA = some EventType.start ∧
     commandLookup 0xFB = some EventType.«continue» ∧
     commandLookup 0xFC = some EventType.stop ∧
     commandLookup 0xFE = some EventType.activeSensing ∧
     commandLookup 0xFF = some EventType.reset) ∧
    rawMessageToMidi [0xF2, 0x10, 0x20] = none ∧
    rawMessageToMidi [0xF3, 0x01] = none ∧
    rawMessageToMidi [0xF8] = none ∧
    rawMessageToMidi [0xFA] = none ∧
    rawMessageToMidi [0xFB] = none ∧
    rawMessageToMidi [0xFC] = none ∧
    rawMessageToMidi [0xFE] = none ∧
    rawMessageToMidi [0xFF] = none := by
  decide

/-- C2: the claim says releasing a pitch that is not active leaves
`activeNotes` and `noteVelocity` unchanged. In the code the release path
splices at `indexOf(note)`, which is -1 for an absent note, and
`splice(-1, 1)` deletes the LAST element: with note 60 held, a NoteOff for
the inactive note 61 empties both lists instead of leaving them alone. -/
theorem c2_release_of_inactive_note_deletes_last_entry :
    statePressed60.notesOn = [some 60] ∧
    statePressed60.noteVelocities = [(some 60, some 100)] ∧
    (onInputEvent statePressed60 [0x80, 61, 0] 1 none).notesOn = [] ∧
    (onInputEvent statePressed60 [0x80, 61, 0] 1 none).noteVelocities = [] := by
  decide

/-- C3: the claim says the resolved `value` of a PitchBend or SongPosition
event equals `(byte2 << 7) + byte1`. The helper `msbLsbToValue` does compute
that (8192 at the centre bytes), but the decoder destructures a property
named `value` out of the returned number, which is always `undefined`, so
the decoded event carries no value at all (and SongPosition bytes fail to
decode entirely, see C1). -/
theorem c3_highres_value_is_undefined :
    msbLsbToValue 0x00 0x40 = 8192 ∧
    msbLsbToValue 0x7F 0x7F = 16383 ∧
    msbLsbToValue 0x00 0x00 = 0 ∧
    (rawMessageToMidi [0xE0, 0x00, 0x40]).isSome = true ∧
    (rawMessageToMidi [0xE0, 0x00, 0x40]).bind MidiEvent.value = none ∧
    (rawMessageToMidi [0xE0, 0x7F, 0x7F]).bind MidiEvent.value = none ∧
    rawMessageToMidi [0xF2, 0x00, 0x40] = none := by
  decide

/-- C4: the claim says a NoteOn with velocity 0 is treated identically to a
NoteOff by every downstream consumer. The tracker release path does treat it
as a release (note removed, `lastNoteReleased` set), but the match queries
compare the type of the last note event against `noteOff` literally, so
after `[0x90, 60, 0]` both `whenAnyNote "released"` and
`whenNote 60 "released"` return false, while after `[0x80, 60, 0]` they
return true. -/
theorem c4_velocity_zero_noteOn_not_matched_as_release :
    MIDI.noteOn (onInputEvent statePressed60 [0x90, 60, 0] 1 none) 60 = false ∧
    (onInputEvent statePressed60 [0x90, 60, 0] 1 none).lastNoteReleased = some 60 ∧
    (MIDI.whenAnyNote (onInputEvent statePressed60 [0x90, 60, 0] 1 none) "released" 0).fst
      = false ∧
    (MIDI.whenNote (onInputEvent statePressed60 [0x90, 60, 0] 1 none) 60 "released" 0).fst
      = false ∧
    (MIDI.whenAnyNote (onInputEvent statePressed60 [0x80, 60, 0] 1 none) "released" 0).fst
      = true ∧
    (MIDI.whenNote (onInputEvent statePressed60 [0x80, 60, 0] 1 none) 60 "released" 0).fst
      = true := by
  decide

/-- C5 counterexample: with note 60 already active (one entry), a second
NoteOn for 60 with velocity 80 leaves `activeNotes` with TWO entries for 60,
refuting the claim that it keeps exactly one entry; the velocity query still
reports the first press velocity 100, so it is not a velocity update
either. -/
theorem c5_counterexample_duplicate_entry :
    statePressed60.notesOn = [some 60] ∧
    (onInputEvent statePressed60 [0x90, 60, 80] 1 none).notesOn = [some 60, some 60] ∧
    ((onInputEvent statePressed60 [0x90, 60, 80] 1 none).notesOn.count (some 60) = 1) = False ∧
    MIDI.noteVelocity (onInputEvent statePressed60 [0x90, 60, 80] 1 none) 60 = some 100 := by
  decide

/-- C7 counterexample: `[0x90, 60]` carries one data byte although noteOn
expects two, yet the decoder succeeds (it does not return a failure), with
the missing velocity simply absent; there is no malformed-message check. -/
theorem c7_counterexample_short_message_decodes :
    (rawMessageToMidi [0x90, 60] = none) = False ∧
    rawMessageToMidi [0x90, 60] =
      some { type := EventType.noteOn, channel := some 0, value1 := some 60,
             pitch := some 60 } := by
  decide

/-- C6: a raw message whose computed command code is not in the table
decodes to null, and processing it leaves every piece of tracked state
(the whole `TrackerState`, thread bindings included) unchanged. -/
theorem c6_unknown_command_leaves_state_unchanged (s : TrackerState) (b : Nat)
    (rest : List Nat) (t : Nat) (d : Option Nat)
    (h : commandLookup (b - b % 16) = none) :
    rawMessageToMidi (b :: rest) = none ∧ onInputEvent s (b :: rest) t d = s := by
  have hdec : rawMessageToMidi (b :: rest) = none := by
    simp [rawMessageToMidi, h]
  exact ⟨hdec, by simp [onInputEvent, hdec]⟩

/-- Witness for C6 at the unknown status byte 0xF0 and the initial state. -/
theorem c6_unknown_command_witness :
    rawMessageToMidi [0xF0] = none ∧
    onInputEvent initialState [0xF0] 0 none = initialState :=
  c6_unknown_command_leaves_state_unchanged initialState 0xF0 [] 0 none (by decide)

/-- C7 amended: whenever the computed command code is in the table the
decoder succeeds, however few data bytes are present; there is no
malformed-message failure. -/
theorem c7_known_command_always_decodes (b : Nat) (rest : List Nat)
    (ty : EventType) (h : commandLookup (b - b % 16) = some ty) :
    (rawMessageToMidi (b :: rest)).isSome = true := by
  simp [rawMessageToMidi, h]

/-- Witness for the amended C7: a one-data-byte noteOn message decodes. -/
theorem c7_known_command_witness :
    (rawMessageToMidi [0x90, 60]).isSome = true :=
  c7_known_command_always_decodes 0x90 [60] EventType.noteOn (by decide)

/-- C10: with no event bound to the calling thread and no event ever
processed, `lastEventProp` returns the empty string for every requested
property name. -/
theorem c10_lastEventProp_empty_when_no_event (s : TrackerState)
    (devices : List String) (PROP : String) (ctx : Nat)
    (h1 : getAssoc ctx s.threadMidi = none) (h2 : s.lastMidiEvent = none) :
    MIDI.lastEventProp s devices PROP ctx = JSVal.str "" := by
  simp [MIDI.lastEventProp, h1, h2]

/-- Witness for C10 at the initial state. -/
theorem c10_lastEventProp_witness :
    MIDI.lastEventProp initialState [] "velocity" 0 = JSVal.str "" :=
  c10_lastEventProp_empty_when_no_event initialState [] "velocity" 0 rfl rfl

theorem removeFirst_map {α β : Type} (f : α → β) (p : β → Bool) (l : List α) :
    removeFirst p (l.map f) = (removeFirst (fun a => p (f a)) l).map f := by
  induction l with
  | nil => rfl
  | cons a rest ih =>
    by_cases h : p (f a) <;> simp [removeFirst, h, ih]
theorem anyMapAux {α β : Type} (f : α → β) (p : β → Bool) (l : List α) :
    (l.map f).any p = l.any (fun a => p (f a)) := by
  induction l with
  | nil => rfl
  | cons a rest ih => simp [ih]

theorem spliceRemove_map {α β : Type} (f : α → β) (p : β → Bool) (l : List α) :
    spliceRemove p (l.map f) = (spliceRemove (fun a => p (f a)) l).map f := by
  by_cases h : l.any (fun a => p (f a)) = true
  · rw [spliceRemove, spliceRemove, anyMapAux, if_pos h, if_pos h, removeFirst_map]
  · rw [spliceRemove, spliceRemove, anyMapAux, if_neg h, if_neg h]
    exact (List.map_dropLast f l).symm

theorem onNote_aligned (s : TrackerState) (event : MidiEvent)
    (h : NotesVelocityAligned s) : NotesVelocityAligned (onNote s event) := by
  unfold NotesVelocityAligned at h ⊢
  by_cases h1 : ((event.type == EventType.noteOn) && jsGt0 event.velocity) = true
  · simp [onNote, h1, h]
  · by_cases h2 : ((event.type == EventType.noteOff)
        || ((event.type == EventType.noteOn) && (event.velocity == some 0))) = true
    · simp [onNote, h1, h2]
      rw [h, spliceRemove_map]
    · simp [onNote, h1, h2, h]

theorem onMIDIMessage_aligned (s : TrackerState) (event : MidiEvent)
    (h : NotesVelocityAligned s) : NotesVelocityAligned (onMIDIMessage s event) := by
  cases hty : event.type <;>
    simp only [onMIDIMessage, hty] <;>
    first
      | exact onNote_aligned _ _ h
      | exact h

theorem applyEvents_aligned (events : List MidiEvent) (s : TrackerState)
    (h : NotesVelocityAligned s) : NotesVelocityAligned (applyEvents s events) := by
  induction events generalizing s with
  | nil => exact h
  | cons e rest ih => exact ih _ (onMIDIMessage_aligned s e h)

theorem aligned_mem (s : TrackerState) (h : NotesVelocityAligned s) (k : Option Nat) :
    k ∈ s.notesOn ↔ ∃ v, (k, v) ∈ s.noteVelocities := by
  rw [NotesVelocityAligned] at h
  rw [h]
  constructor
  · intro hk
    rcases List.mem_map.mp hk with ⟨⟨k2, v⟩, hmem, rfl⟩
    exact ⟨v, hmem⟩
  · rintro ⟨v, hv⟩
    exact List.mem_map.mpr ⟨(k, v), hv, rfl⟩

/-- C8: applying any event preserves the notesOn/noteVelocities alignment,
and in every state reachable from the initial state by a sequence of
decoded events a note is in `notesOn` exactly when `noteVelocities` has an
entry for it. -/
theorem c8_activeNotes_velocity_correspondence :
    (∀ s event, NotesVelocityAligned s → NotesVelocityAligned (onMIDIMessage s event)) ∧
    (∀ events n, (some n) ∈ (applyEvents initialState events).notesOn ↔
      ∃ v, ((some n), v) ∈ (applyEvents initialState events).noteVelocities) := by
  constructor
  · exact onMIDIMessage_aligned
  · intro events n
    exact aligned_mem _ (applyEvents_aligned events initialState rfl) (some n)

/-- Witness for C8: the invariant holds after one concrete noteOn event. -/
theorem c8_correspondence_witness :
    NotesVelocityAligned (onMIDIMessage initialState
      { type := EventType.noteOn, pitch := some 60, velocity := some 100 }) ∧
    ((some 60) ∈ (applyEvents initialState []).notesOn ↔
      ∃ v, ((some 60), v) ∈ (applyEvents initialState []).noteVelocities) :=
  ⟨c8_activeNotes_velocity_correspondence.1 initialState
      { type := EventType.noteOn, pitch := some 60, velocity := some 100 } rfl,
   c8_activeNotes_velocity_correspondence.2 [] 60⟩

/-- C5 amended: a NoteOn with velocity v > 0 for a pitch already in
`activeNotes` does NOT update the existing hold; it appends a second,
duplicate entry for the pitch to `notesOn` and appends `(pitch, v)` to
`noteVelocities` (so the count of entries for that pitch grows beyond one),
and sets `lastNotePressed`. -/
theorem c5_noteOn_on_active_appends_duplicate (s : TrackerState) (p v t : Nat)
    (d : Option Nat) (hmem : (some p) ∈ s.notesOn) (hv : 0 < v) :
    (onInputEvent s [0x90, p, v] t d).notesOn = s.notesOn ++ [some p] ∧
    (onInputEvent s [0x90, p, v] t d).noteVelocities
      = s.noteVelocities ++ [((some p), (some v))] ∧
    (onInputEvent s [0x90, p, v] t d).lastNotePressed = some p ∧
    (onInputEvent s [0x90, p, v] t d).notesOn.count (some p)
      = s.notesOn.count (some p) + 1 ∧
    1 ≤ s.notesOn.count (some p) := by
  have hmemc : 1 ≤ s.notesOn.count (some p) := by
    have := List.count_pos_iff.mpr hmem
    omega
  have hdec : rawMessageToMidi [0x90, p, v]
      = some { type := EventType.noteOn, channel := some 0, value1 := some p,
               value2 := some v, pitch := some p, velocity := some v } := rfl
  cases d <;>
    simp [onInputEvent, hdec, onMIDIMessage, onNote, jsGt0, hv, hmemc,
      List.count_append]

/-- Witness for the amended C5: note 60 held, second NoteOn appends. -/
theorem c5_duplicate_witness :
    (some 60) ∈ statePressed60.notesOn ∧ 0 < 80 ∧
    (onInputEvent statePressed60 [0x90, 60, 80] 1 none).notesOn
      = statePressed60.notesOn ++ [some 60] :=
  ⟨by decide, by decide,
   (c5_noteOn_on_active_appends_duplicate statePressed60 60 80 1 none
     (by decide) (by decide)).1⟩

/-- C9: `whenCC n` returns true exactly when a last ControlChange event
exists and its controller number equals n; on match it binds that event to
the calling thread, otherwise the state (and hence any prior binding) is
untouched. Concretely, after `[0xB0, 7, 127]` it matches controller 7 and
binds the decoded event, and does not match controller 8. -/
theorem c9_whenCC_matches_controller :
    (∀ s n ctx, ((MIDI.whenCC s n ctx).fst = true ↔
        ∃ ev, getAssoc EventType.cc s.lastOfType = some ev ∧ ev.cc = some n)) ∧
    (∀ s n ctx, (MIDI.whenCC s n ctx).fst = false → (MIDI.whenCC s n ctx).snd = s) ∧
    (∀ s n ctx ev, getAssoc EventType.cc s.lastOfType = some ev → ev.cc = some n →
        (MIDI.whenCC s n ctx).snd
          = { s with threadMidi := setAssoc ctx ev s.threadMidi }) ∧
    (MIDI.whenCC stateCC7 7 0).fst = true ∧
    getAssoc 0 (MIDI.whenCC stateCC7 7 0).snd.threadMidi =
      some { type := EventType.cc, channel := some 0, value1 := some 7,
             value2 := some 127, cc := some 7, value := some 127, time := some 5 } ∧
    (MIDI.whenCC stateCC7 8 0).fst = false ∧
    (MIDI.whenCC stateCC7 8 0).snd = stateCC7 := by
  refine ⟨?_, ?_, ?_, by decide, by decide, by decide, by decide⟩
  · intro s n ctx
    cases hcc : getAssoc EventType.cc s.lastOfType with
    | none => simp [MIDI.whenCC, hcc]
    | some ev =>
      by_cases h : ev.cc = some n
      · simp [MIDI.whenCC, hcc, h]
      · simp [MIDI.whenCC, hcc, h]
  · intro s n ctx
    cases hcc : getAssoc EventType.cc s.lastOfType with
    | none => simp [MIDI.whenCC, hcc]
    | some ev =>
      by_cases h : ev.cc = some n
      · simp [MIDI.whenCC, hcc, h]
      · simp [MIDI.whenCC, hcc, h]
  · intro s n ctx ev hcc h
    simp [MIDI.whenCC, hcc, h]

/-- Witness for C9: instantiating the general parts at the concrete state. -/
theorem c9_whenCC_witness :
    ((MIDI.whenCC stateCC7 8 0).snd = stateCC7) ∧
    ((MIDI.whenCC stateCC7 7 0).fst = true ↔
      ∃ ev, getAssoc EventType.cc stateCC7.lastOfType = some ev ∧ ev.cc = some 7) :=
  ⟨c9_whenCC_matches_controller.2.1 stateCC7 8 0 (by decide),
   c9_whenCC_matches_controller.1 stateCC7 7 0⟩
